import Mathlib

/-!
Shallow embedding of the BlockBlueLight BLE coordinator
(`custom_components/blockbluelight/const.py` and
`custom_components/blockbluelight/coordinator.py`, together with the
range check of `analysis/control_device.py`), with theorems checking the
natural-language specification against it.

Bytes are modelled as `Nat` (Python ints are unbounded; every byte the
code builds is masked with `&&& 0xFF` exactly where the source masks).
Device-timer seconds are modelled as `Int`, mirroring Python's signed
`int` for the coordinator's `_timer_remaining` field, so that
non-negativity is a real invariant rather than a typing triviality.
Cancellable timer handles (`asyncio.TimerHandle`) are modelled as `Bool`
flags meaning "a live (non-cancelled) handle is scheduled"; the BLE
client `_client : Optional[BleakClient]` is modelled as `Option Bool`
(`none` = no handle, `some b` = handle present with `is_connected = b`).
-/

/-! ## const.py -/

def DEFAULT_TIMER_DURATION : Nat := 15

def MIN_TIMER_DURATION : Nat := 1

def MAX_TIMER_DURATION : Nat := 60

/-- `TURN_ON_CMD = bytes([0x3A, 0x01, 0x20, 0x00, 0x01, 0x01, 0x23, 0x0A])` -/
def TURN_ON_CMD : List Nat := [0x3A, 0x01, 0x20, 0x00, 0x01, 0x01, 0x23, 0x0A]

/-- `TURN_OFF_CMD = bytes([0x3A, 0x01, 0x20, 0x00, 0x01, 0x00, 0x22, 0x0A])` -/
def TURN_OFF_CMD : List Nat := [0x3A, 0x01, 0x20, 0x00, 0x01, 0x00, 0x22, 0x0A]

/-- `STATUS_QUERY_CMD = bytes([0x3A, 0x01, 0x10, 0x00, 0x00, 0x11, 0x0A])` -/
def STATUS_QUERY_CMD : List Nat := [0x3A, 0x01, 0x10, 0x00, 0x00, 0x11, 0x0A]

def RESPONSE_START_BYTE : Nat := 0x2A

def POWER_CMD_TYPE : Nat := 0x20

def STATUS_CMD_TYPE : Nat := 0x10

def TIMER_CMD_TYPE : Nat := 0x31

/-- `create_timer_command(minutes)` from `const.py` (the identical copy in
`analysis/control_device.py` has the same body).  The device timer value is
`minutes * 60` seconds, sent as a 2-byte big-endian integer; the checksum is
`sum(cmd[1:]) & 0xFF`, i.e. the sum of all bytes excluding the `0x3A` start
byte (the `0x0A` terminator is appended after the checksum).  The source has
no range check on `minutes`. -/
def create_timer_command (minutes : Nat) : List Nat :=
  let seconds := minutes * 60
  let timer_high := (seconds >>> 8) &&& 0xFF
  let timer_low := seconds &&& 0xFF
  let cmd := [0x3A, 0x01, 0x31, 0x00, 0x02, timer_high, timer_low]
  let checksum := (cmd.drop 1).sum &&& 0xFF
  cmd ++ [checksum, 0x0A]

/-- The out-of-range check the CLI (`analysis/control_device.py`, `main`)
applies to the timer argument before any I/O:
`if timer_minutes < 1 or timer_minutes > 60: print error and exit`. -/
def timer_arg_in_range (minutes : Int) : Bool :=
  !(minutes < 1 || minutes > 60)

/-! ## The outbound frame shape of the specification

`spec_frame` follows the spec's words (not the source) and exists to be
compared against the byte constants and `create_timer_command`:
an outbound frame is `[0x3A, 0x01, opcode, 0x00, payloadLen, ...payload,
checksum, 0x0A]` where the checksum is the sum of all bytes from byte
index 1 (the `0x01`) through the end of the payload, modulo 256. -/
def spec_frame (opcode : Nat) (payload : List Nat) : List Nat :=
  [0x3A, 0x01, opcode, 0x00, payload.length] ++ payload ++
    [(0x01 + opcode + 0x00 + payload.length + payload.sum) % 256, 0x0A]

/-! ## coordinator.py: state

`BlockBlueLightCoordinator.__init__` sets `_is_on = False`,
`_expected_disconnect = False`, `_timer_duration = DEFAULT_TIMER_DURATION`
(minutes), `_timer_remaining = 0` (seconds), and leaves `_client`,
`_disconnect_timer`, `_auto_off_timer` and `_countdown_timer` as `None`. -/
structure CoordinatorState where
  /-- `_is_on` -/
  is_on : Bool
  /-- `_expected_disconnect` -/
  expected_disconnect : Bool
  /-- `_timer_duration`, the configured timer in minutes -/
  timer_duration : Nat
  /-- `_timer_remaining`, seconds remaining on the device timer (Python `int`) -/
  timer_remaining : Int
  /-- `_countdown_timer`: a live client-side countdown tick is scheduled -/
  countdown_timer : Bool
  /-- `_disconnect_timer`: a live idle-disconnect callback is scheduled -/
  disconnect_timer : Bool
  /-- `_auto_off_timer`: a live auto-off callback is scheduled -/
  auto_off_timer : Bool
  /-- `_client`: `none` = no handle, `some b` = handle with `is_connected = b` -/
  client : Option Bool
deriving DecidableEq, Repr

/-- The state `__init__` builds. -/
def initial_state : CoordinatorState :=
  { is_on := false
    expected_disconnect := false
    timer_duration := DEFAULT_TIMER_DURATION
    timer_remaining := 0
    countdown_timer := false
    disconnect_timer := false
    auto_off_timer := false
    client := none }

/-! ## coordinator.py: notification decoding

`_notification_handler` first validates and destructures the notification
bytes, then mutates state.  `decode_notification` is the validation and
destructuring part; `apply_event` (below) is the mutation part; their
composition is exactly the handler's behavior. -/

/-- The typed content `_notification_handler` extracts from a notification.
`Event.ignored` covers every early `return` of the handler (too short,
wrong start byte, truncated status/power frame, unknown opcode). -/
inductive Event where
  | statusUpdate (new_state : Bool) (timer_seconds : Nat)
  | powerAck (new_state : Bool)
  | timerAck
  | ignored
deriving DecidableEq, Repr

/-- The validation/destructuring layer of `_notification_handler`:
* `len(data) < 3 or data[0] != RESPONSE_START_BYTE` → ignored;
* `cmd_type = data[2]`;
* status (`0x10`): needs `len(data) > 9`; `status_byte = data[5]`,
  `timer_seconds = (data[8] << 8) | data[9]`, power flag `status_byte == 0x01`;
* power (`0x20`): needs `len(data) > 5`; power flag `data[5] == 0x01`;
* timer (`0x31`): acknowledgment only;
* anything else falls through the `elif` chain → ignored. -/
def decode_notification (data : List Nat) : Event :=
  -- `cmd_type = data[2]` is written out at each use below
  if data.length < 3 ∨ data.getD 0 0 ≠ RESPONSE_START_BYTE then .ignored
  else if data.getD 2 0 = STATUS_CMD_TYPE then
    if data.length > 9 then
      .statusUpdate (data.getD 5 0 == 0x01)
        ((data.getD 8 0 <<< 8) ||| data.getD 9 0)
    else .ignored
  else if data.getD 2 0 = POWER_CMD_TYPE then
    if data.length > 5 then .powerAck (data.getD 5 0 == 0x01) else .ignored
  else if data.getD 2 0 = TIMER_CMD_TYPE then .timerAck
  else .ignored

/-- The state-mutation layer of `_notification_handler`.  Returns the new
state together with the number of `async_set_updated_data` calls (observer
state-changed notifications) the handler makes.

* Status frame: if the decoded power flag or decoded remaining seconds
  differs from current state, both fields are replaced and one update is
  pushed; then (still inside the changed branch) the countdown is started
  when `timer_seconds > 0` and none is running, and stopped when
  `timer_seconds == 0` and one is running.  `_start_countdown` /
  `_stop_countdown` set/clear `_countdown_timer`.
* Power-ack frame: `_is_on` alone is replaced (and one update pushed) when
  it differs; timer fields and countdown untouched.
* Timer-ack frame and ignored input: no mutation, no update. -/
def apply_event (st : CoordinatorState) : Event → CoordinatorState × Nat
  | .statusUpdate new_state timer_seconds =>
    -- the replacement of both fields is written into each countdown branch
    -- (the field update does not touch `countdown_timer`, so testing
    -- `countdown_timer` before or after it is the same)
    if new_state ≠ st.is_on ∨ (timer_seconds : Int) ≠ st.timer_remaining then
      (if timer_seconds > 0 ∧ ¬st.countdown_timer then
        { st with
            is_on := new_state
            timer_remaining := (timer_seconds : Int)
            countdown_timer := true }
      else if timer_seconds = 0 ∧ st.countdown_timer then
        { st with
            is_on := new_state
            timer_remaining := (timer_seconds : Int)
            countdown_timer := false }
      else
        { st with is_on := new_state, timer_remaining := (timer_seconds : Int) }, 1)
    else (st, 0)
  | .powerAck new_state =>
    if new_state ≠ st.is_on then ({ st with is_on := new_state }, 1) else (st, 0)
  | .timerAck => (st, 0)
  | .ignored => (st, 0)

/-- `_notification_handler` = decode, then apply. -/
def notification_handler (st : CoordinatorState) (data : List Nat) :
    CoordinatorState × Nat :=
  apply_event st (decode_notification data)

/-! ## coordinator.py: countdown tick -/

/-- `_update_countdown`.  When `_timer_remaining > 0` it is decremented by 1
and an update pushed; a next tick is scheduled iff the result is still
positive, otherwise `_countdown_timer` is cleared (and a status-query task is
spawned, an asynchronous effect outside this state transition).  When
`_timer_remaining` is not positive, `_countdown_timer` is cleared. -/
def update_countdown (st : CoordinatorState) : CoordinatorState :=
  if st.timer_remaining > 0 then
    -- decremented value written into both branches of the reschedule test
    if st.timer_remaining - 1 > 0 then
      { st with timer_remaining := st.timer_remaining - 1, countdown_timer := true }
    else
      { st with timer_remaining := st.timer_remaining - 1, countdown_timer := false }
  else { st with countdown_timer := false }

/-! ## coordinator.py: disconnect -/

/-- `async_disconnect`: skipped entirely while a countdown tick is scheduled;
otherwise sets `_expected_disconnect = True`, cancels and clears
`_disconnect_timer`, cancels `_auto_off_timer`, and — when a connected client
handle exists — awaits `client.disconnect()` (the handle stays, no longer
connected; `_disconnected` clearing it later is an asynchronous callback
outside this transition). -/
def async_disconnect (st : CoordinatorState) : CoordinatorState :=
  if st.countdown_timer then st
  else if st.client = some true then
    { st with
        expected_disconnect := true
        disconnect_timer := false
        auto_off_timer := false
        client := some false }
  else
    { st with
        expected_disconnect := true
        disconnect_timer := false
        auto_off_timer := false }

/-! ## coordinator.py: sending commands

`_send_command` writes bytes to the device; its observable effects on this
model are the sequence of frames written and the timer/handle flags.  A
configuration is a `CoordinatorState` paired with the list of frames written
so far, in write order. -/

/-- The body of `_send_command` once a connected client is in hand: cancels
any pending `_disconnect_timer`, writes `command` to the write
characteristic, then re-arms the idle-disconnect callback unless a countdown
is active (in which case the cancelled timer is left unscheduled). -/
def send_core (p : CoordinatorState × List (List Nat)) (command : List Nat) :
    CoordinatorState × List (List Nat) :=
  ({ p.1 with disconnect_timer := !p.1.countdown_timer }, p.2 ++ [command])

/-- `async_connect` (success path): a no-op when a connected client exists;
otherwise establishes the connection and subscribes to notifications, then
issues the initial status query to sync state (`_query_status` →
`_send_command STATUS_QUERY_CMD`; the retry loop breaks after the first
successful attempt, and since the client is now connected `_send_command`
reduces to `send_core`). -/
def async_connect (p : CoordinatorState × List (List Nat)) :
    CoordinatorState × List (List Nat) :=
  if p.1.client = some true then p
  else send_core ({ p.1 with client := some true }, p.2) STATUS_QUERY_CMD

/-- `_send_command`: lazily reconnects (`if not self._client or not
self._client.is_connected: await self.async_connect()`), then runs the write
path of `send_core`. -/
def send_command (p : CoordinatorState × List (List Nat)) (command : List Nat) :
    CoordinatorState × List (List Nat) :=
  send_core (if p.1.client = some true then p else async_connect p) command

/-- `async_turn_on`: when `_timer_duration > 0`, sends
`create_timer_command(_timer_duration)` then (after a 0.2 s settle)
`TURN_ON_CMD`; otherwise just `TURN_ON_CMD`.  After a 0.5 s settle it
optimistically sets `_is_on = True` and pushes an update; when
`_timer_duration > 0` it then queries status (`STATUS_QUERY_CMD`), leaving
the countdown to be started by the notification handler; finally any
`_auto_off_timer` is cancelled and cleared. -/
def async_turn_on (p : CoordinatorState × List (List Nat)) :
    CoordinatorState × List (List Nat) :=
  let p1 : CoordinatorState × List (List Nat) :=
    if p.1.timer_duration > 0 then
      send_command (send_command p (create_timer_command p.1.timer_duration)) TURN_ON_CMD
    else
      send_command p TURN_ON_CMD
  let p2 : CoordinatorState × List (List Nat) := ({ p1.1 with is_on := true }, p1.2)
  let p3 : CoordinatorState × List (List Nat) :=
    if p2.1.timer_duration > 0 then send_command p2 STATUS_QUERY_CMD else p2
  ({ p3.1 with auto_off_timer := false }, p3.2)

/-- `async_turn_off`: cancels and clears any `_auto_off_timer`, sends
`TURN_OFF_CMD`, optimistically sets `_is_on = False` and pushes an update. -/
def async_turn_off (p : CoordinatorState × List (List Nat)) :
    CoordinatorState × List (List Nat) :=
  let p1 := send_command ({ p.1 with auto_off_timer := false }, p.2) TURN_OFF_CMD
  ({ p1.1 with is_on := false }, p1.2)

/-! ## Theorems -/

/-- C1: every outbound command frame — power on, power off, status query, and
set-timer for every minutes in [1,60] — is exactly the byte sequence
`[0x3A, 0x01, opcode, 0x00, payloadLen, ...payload, checksum, 0x0A]` with the
checksum equal to the sum of all bytes from byte index 1 (the `0x01`) through
the end of the payload, modulo 256; power uses opcode `0x20` with 1-byte
payload `0x01`/`0x00`, status query uses opcode `0x10` with empty payload,
set-timer uses opcode `0x31` with the 2-byte payload. -/
theorem outbound_frames_match_spec_frame :
    ∀ minutes : Nat, minutes ≤ 60 → 1 ≤ minutes →
      TURN_ON_CMD = spec_frame 0x20 [0x01] ∧
      TURN_OFF_CMD = spec_frame 0x20 [0x00] ∧
      STATUS_QUERY_CMD = spec_frame 0x10 [] ∧
      create_timer_command minutes =
        spec_frame 0x31 [(minutes * 60) >>> 8 &&& 0xFF, (minutes * 60) &&& 0xFF] := by
  decide

/-- Witness for C1 at `minutes = 20`. -/
theorem outbound_frames_match_spec_frame_witness :
    TURN_ON_CMD = spec_frame 0x20 [0x01] ∧
    TURN_OFF_CMD = spec_frame 0x20 [0x00] ∧
    STATUS_QUERY_CMD = spec_frame 0x10 [] ∧
    create_timer_command 20 =
      spec_frame 0x31 [(20 * 60) >>> 8 &&& 0xFF, (20 * 60) &&& 0xFF] :=
  outbound_frames_match_spec_frame 20 (by decide) (by decide)

/-- C2 counterexample: the checksum byte is NOT `sum(opcode, len, payload) mod
256`.  For `create_timer_command 1` (payload `00 3C`) the checksum byte is
`0x70`, while `(0x31 + 0x02 + (0x00 + 0x3C)) % 256 = 0x6F`; the power-on and
status-query frames disagree with that formula in the same way, because the
sum the code computes also includes the fixed `0x01` byte at frame index 1. -/
theorem checksum_omits_prefix_byte_cx :
    (create_timer_command 1).getD 7 0 ≠ (0x31 + 0x02 + (0x00 + 0x3C)) % 256 ∧
    TURN_ON_CMD.getD 6 0 ≠ (0x20 + 0x01 + 0x01) % 256 ∧
    STATUS_QUERY_CMD.getD 5 0 ≠ (0x10 + 0x00 + 0) % 256 := by
  decide

/-- C2 amended: for every minutes in [1,60] the checksum byte of
`create_timer_command minutes` equals
`(0x01 + opcode + len + payloadSum) mod 256` — the additive sum modulo 256
over the fixed `0x01` byte, the opcode byte, the (zero) byte at index 3, the
payload-length byte and the payload bytes; the same formula holds for the
power and status-query frames. -/
theorem checksum_includes_prefix_byte :
    ∀ minutes : Nat, minutes ≤ 60 → 1 ≤ minutes →
      (create_timer_command minutes).getD 7 0 =
        (0x01 + 0x31 + 0x00 + 0x02 +
          ((minutes * 60) >>> 8 &&& 0xFF) + ((minutes * 60) &&& 0xFF)) % 256 ∧
      TURN_ON_CMD.getD 6 0 = (0x01 + 0x20 + 0x00 + 0x01 + 0x01) % 256 ∧
      TURN_OFF_CMD.getD 6 0 = (0x01 + 0x20 + 0x00 + 0x01 + 0x00) % 256 ∧
      STATUS_QUERY_CMD.getD 5 0 = (0x01 + 0x10 + 0x00 + 0x00) % 256 := by
  decide

/-- Witness for the amended C2 at `minutes = 20`. -/
theorem checksum_includes_prefix_byte_witness :
    (create_timer_command 20).getD 7 0 =
      (0x01 + 0x31 + 0x00 + 0x02 +
        ((20 * 60) >>> 8 &&& 0xFF) + ((20 * 60) &&& 0xFF)) % 256 ∧
    TURN_ON_CMD.getD 6 0 = (0x01 + 0x20 + 0x00 + 0x01 + 0x01) % 256 ∧
    TURN_OFF_CMD.getD 6 0 = (0x01 + 0x20 + 0x00 + 0x01 + 0x00) % 256 ∧
    STATUS_QUERY_CMD.getD 5 0 = (0x01 + 0x10 + 0x00 + 0x00) % 256 :=
  checksum_includes_prefix_byte 20 (by decide) (by decide)

/-- C3: for every minutes in [1,60] the two payload bytes of
`create_timer_command minutes` (frame indices 5 and 6) are the big-endian
16-bit encoding of `minutes * 60` seconds, so decoding them as
`(high <<< 8) ||| low` round-trips to exactly `minutes * 60`. -/
theorem timer_payload_roundtrip :
    ∀ minutes : Nat, minutes ≤ 60 → 1 ≤ minutes →
      ((create_timer_command minutes).getD 5 0 <<< 8) |||
          (create_timer_command minutes).getD 6 0 = minutes * 60 := by
  decide

/-- Witness for C3 at `minutes = 20`. -/
theorem timer_payload_roundtrip_witness :
    ((create_timer_command 20).getD 5 0 <<< 8) |||
        (create_timer_command 20).getD 6 0 = 20 * 60 :=
  timer_payload_roundtrip 20 (by decide) (by decide)

/-- C4 counterexample: `create_timer_command` does not fail outside [1,60] —
it returns a complete 9-byte frame at both `0` and `61` (the source has no
range check at all; `InvalidArgument`-style rejection exists only in the CLI
argument parsing, not in the codec). -/
theorem create_timer_command_no_range_check_cx :
    create_timer_command 0 = [0x3A, 0x01, 0x31, 0x00, 0x02, 0x00, 0x00, 0x34, 0x0A] ∧
    create_timer_command 61 = [0x3A, 0x01, 0x31, 0x00, 0x02, 0x0E, 0x4C, 0x8E, 0x0A] := by
  decide

/-- C4 amended: `create_timer_command` performs no range validation — for
every minutes it returns a well-formed 9-byte frame (start byte `0x3A`,
terminator `0x0A`), including at 0 and 61; the [1,60] bound is enforced only
by callers before any I/O: the CLI's `timer_arg_in_range` check (which
rejects 0 and 61 and accepts exactly 1..60) and the number entity's
`MIN_TIMER_DURATION`/`MAX_TIMER_DURATION` bounds of 1 and 60. -/
theorem create_timer_command_total_callers_validate :
    ∀ minutes : Nat,
      (create_timer_command minutes).length = 9 ∧
      (create_timer_command minutes).getD 0 0 = 0x3A ∧
      (create_timer_command minutes).getD 8 0 = 0x0A ∧
      timer_arg_in_range 0 = false ∧ timer_arg_in_range 61 = false ∧
      timer_arg_in_range 1 = true ∧ timer_arg_in_range 60 = true ∧
      MIN_TIMER_DURATION = 1 ∧ MAX_TIMER_DURATION = 60 := by
  intro minutes
  refine ⟨?_, ?_, ?_, by decide, by decide, by decide, by decide, by decide, by decide⟩ <;>
    simp [create_timer_command]

/-- C5: `decode_notification` is total (a Lean function, never raising), and
every malformed or unrecognized input — length below 3, wrong start byte, a
status frame shorter than 10 bytes, a power frame shorter than 6 bytes, or an
unknown opcode — decodes to `ignored`; on such input the handler leaves the
device state completely unchanged and emits no update. -/
theorem decode_notification_malformed_ignored :
    ∀ (data : List Nat) (st : CoordinatorState),
      (data.length < 3 ∨ data.getD 0 0 ≠ RESPONSE_START_BYTE ∨
        (data.getD 2 0 = STATUS_CMD_TYPE ∧ data.length < 10) ∨
        (data.getD 2 0 = POWER_CMD_TYPE ∧ data.length < 6) ∨
        (data.getD 2 0 ≠ STATUS_CMD_TYPE ∧ data.getD 2 0 ≠ POWER_CMD_TYPE ∧
          data.getD 2 0 ≠ TIMER_CMD_TYPE)) →
      decode_notification data = .ignored ∧ notification_handler st data = (st, 0) := by
  intro data st h
  have hd : decode_notification data = .ignored := by
    unfold decode_notification
    split_ifs with h0 h1 h2 h3 h4 h5 <;> try rfl
    all_goals
      exfalso
      rcases h with h | h | ⟨ha, hb⟩ | ⟨ha, hb⟩ | ⟨ha, hb, hc⟩ <;>
        simp_all [RESPONSE_START_BYTE, STATUS_CMD_TYPE, POWER_CMD_TYPE, TIMER_CMD_TYPE] <;>
        omega
  exact ⟨hd, by simp [notification_handler, hd, apply_event]⟩

/-- Witness for C5: a 3-byte status frame (too short) decodes to `ignored`
and leaves the initial state unchanged. -/
theorem decode_notification_malformed_ignored_witness :
    decode_notification [0x2A, 0x00, 0x10] = .ignored ∧
    notification_handler initial_state [0x2A, 0x00, 0x10] = (initial_state, 0) :=
  decode_notification_malformed_ignored [0x2A, 0x00, 0x10] initial_state (by decide)

/-- C6: `timer_remaining` is never negative — the countdown tick, event
application (status updates and power acks), `async_turn_on` and
`async_turn_off` all preserve `0 ≤ timer_remaining`; the tick decrements
`timer_remaining` by exactly 1 when it is positive and leaves it at 0
otherwise, so a countdown started at remaining 3 ticks through 2, 1, 0,
stops exactly at 0 (clearing the scheduled tick), and never goes negative. -/
theorem timer_remaining_never_negative :
    ∀ (st : CoordinatorState) (e : Event), 0 ≤ st.timer_remaining →
      (0 ≤ (update_countdown st).timer_remaining ∧
        0 ≤ (apply_event st e).1.timer_remaining ∧
        0 ≤ (async_turn_on (st, [])).1.timer_remaining ∧
        0 ≤ (async_turn_off (st, [])).1.timer_remaining) ∧
      (0 < st.timer_remaining →
        (update_countdown st).timer_remaining = st.timer_remaining - 1) ∧
      (st.timer_remaining = 0 → (update_countdown st).timer_remaining = 0) ∧
      (st.timer_remaining = 3 →
        (update_countdown st).timer_remaining = 2 ∧
        (update_countdown st).countdown_timer = true ∧
        (update_countdown (update_countdown st)).timer_remaining = 1 ∧
        (update_countdown (update_countdown st)).countdown_timer = true ∧
        (update_countdown (update_countdown (update_countdown st))).timer_remaining = 0 ∧
        (update_countdown (update_countdown (update_countdown st))).countdown_timer = false ∧
        (update_countdown (update_countdown (update_countdown (update_countdown st)))).timer_remaining
          = 0) := by
  intro st e h
  refine ⟨⟨?_, ?_, ?_, ?_⟩, ?_, ?_, ?_⟩
  · unfold update_countdown; split_ifs <;> simp <;> omega
  · cases e
    case statusUpdate flag ts =>
      simp only [apply_event]
      split_ifs <;> simp [h]
    case powerAck flag =>
      simp only [apply_event]
      split_ifs <;> simp [h]
    case timerAck => exact h
    case ignored => exact h
  · unfold async_turn_on send_command async_connect send_core
    split_ifs <;> simp_all
  · unfold async_turn_off send_command async_connect send_core
    split_ifs <;> simp_all
  · intro hpos; unfold update_countdown; split_ifs <;> simp
  · intro h0; unfold update_countdown; split_ifs <;> simp <;> omega
  · intro h3
    simp [update_countdown, h3]

/-- Witness for C6 at a concrete state with remaining = 3 and a running
countdown. -/
theorem timer_remaining_never_negative_witness :
    (update_countdown { initial_state with timer_remaining := 3, countdown_timer := true }).timer_remaining = 2 ∧
    (update_countdown (update_countdown (update_countdown
      { initial_state with timer_remaining := 3, countdown_timer := true }))).countdown_timer = false :=
  ⟨((timer_remaining_never_negative
      { initial_state with timer_remaining := 3, countdown_timer := true }
      .ignored (by decide)).2.2.2 (by decide)).1,
    ((timer_remaining_never_negative
      { initial_state with timer_remaining := 3, countdown_timer := true }
      .ignored (by decide)).2.2.2 (by decide)).2.2.2.2.2.1⟩

/-- C7: applying a status update is idempotent with respect to observer
notifications — when the decoded power flag equals the current `is_on` and
the decoded remaining seconds equal the current `timer_remaining`, the state
is returned unchanged with zero updates emitted; applying the same status
update a second time always emits zero updates; and when either field
differs, both fields are replaced together and exactly one update is
emitted. -/
theorem status_update_idempotent :
    ∀ (st : CoordinatorState) (flag : Bool) (ts : Nat),
      ((flag = st.is_on ∧ (ts : Int) = st.timer_remaining) →
        apply_event st (.statusUpdate flag ts) = (st, 0)) ∧
      apply_event (apply_event st (.statusUpdate flag ts)).1 (.statusUpdate flag ts) =
        ((apply_event st (.statusUpdate flag ts)).1, 0) ∧
      ((flag ≠ st.is_on ∨ (ts : Int) ≠ st.timer_remaining) →
        (apply_event st (.statusUpdate flag ts)).1.is_on = flag ∧
        (apply_event st (.statusUpdate flag ts)).1.timer_remaining = (ts : Int) ∧
        (apply_event st (.statusUpdate flag ts)).2 = 1) := by
  intro st flag ts
  refine ⟨?_, ?_, ?_⟩
  · rintro ⟨h1, h2⟩
    simp [apply_event, h1, h2]
  · simp only [apply_event]
    split_ifs <;> simp_all
  · intro hne
    simp only [apply_event]
    split_ifs <;> simp_all

/-- Witness for C7: two consecutive identical status updates with
remaining = 0 — the first (on a state that is on with remaining 7) changes
state and emits one update, the second emits none. -/
theorem status_update_idempotent_witness :
    apply_event
        (apply_event { initial_state with is_on := true, timer_remaining := 7 }
          (.statusUpdate false 0)).1 (.statusUpdate false 0) =
      ((apply_event { initial_state with is_on := true, timer_remaining := 7 }
          (.statusUpdate false 0)).1, 0) ∧
    (apply_event { initial_state with is_on := true, timer_remaining := 7 }
        (.statusUpdate false 0)).2 = 1 :=
  ⟨(status_update_idempotent { initial_state with is_on := true, timer_remaining := 7 }
      false 0).2.1,
    ((status_update_idempotent { initial_state with is_on := true, timer_remaining := 7 }
      false 0).2.2 (by decide)).2.2⟩

/-- C8: `async_disconnect` while a countdown is active returns the state
completely unchanged (expected-disconnect flag, idle-disconnect timer, device
state and client handle untouched); with no active countdown it marks the
disconnect as expected, cancels any pending idle-disconnect timer, tears
down the connection (no connected handle remains), leaves the device state
untouched, and is idempotent — a second call changes nothing further. -/
theorem async_disconnect_spec :
    ∀ st : CoordinatorState,
      (st.countdown_timer = true → async_disconnect st = st) ∧
      (st.countdown_timer = false →
        (async_disconnect st).expected_disconnect = true ∧
        (async_disconnect st).disconnect_timer = false ∧
        (async_disconnect st).auto_off_timer = false ∧
        (async_disconnect st).client ≠ some true ∧
        (async_disconnect st).is_on = st.is_on ∧
        (async_disconnect st).timer_remaining = st.timer_remaining ∧
        (async_disconnect st).timer_duration = st.timer_duration ∧
        (async_disconnect st).countdown_timer = false ∧
        async_disconnect (async_disconnect st) = async_disconnect st) := by
  intro st
  constructor
  · intro hc; unfold async_disconnect; rw [if_pos hc]
  · intro hc
    unfold async_disconnect
    rw [if_neg (by simp [hc])]
    split_ifs <;> simp_all

/-- Witness for C8: on a freshly constructed connected coordinator with no
countdown, disconnect is expected, tears down the handle, and a second call
is a no-op. -/
theorem async_disconnect_spec_witness :
    (async_disconnect { initial_state with client := some true }).expected_disconnect = true ∧
    (async_disconnect { initial_state with client := some true }).client ≠ some true ∧
    async_disconnect (async_disconnect { initial_state with client := some true }) =
      async_disconnect { initial_state with client := some true } :=
  ⟨((async_disconnect_spec { initial_state with client := some true }).2 rfl).1,
    ((async_disconnect_spec { initial_state with client := some true }).2 rfl).2.2.2.1,
    ((async_disconnect_spec { initial_state with client := some true }).2 rfl).2.2.2.2.2.2.2.2⟩

/-- C9: on a connected session, `async_turn_on` with a configured timer
duration greater than 0 writes exactly, and in this order,
`create_timer_command(duration)`, then `TURN_ON_CMD`, then (after the settle
delay) `STATUS_QUERY_CMD`, and finishes with `is_on = true` set optimistically
(no acknowledgment event has been applied); with duration 0 it writes only
`TURN_ON_CMD`, with no set-timer and no status query. -/
theorem async_turn_on_sends :
    ∀ st : CoordinatorState, st.client = some true →
      (st.timer_duration > 0 →
        (async_turn_on (st, [])).2 =
          [create_timer_command st.timer_duration, TURN_ON_CMD, STATUS_QUERY_CMD] ∧
        (async_turn_on (st, [])).1.is_on = true) ∧
      (st.timer_duration = 0 →
        (async_turn_on (st, [])).2 = [TURN_ON_CMD] ∧
        (async_turn_on (st, [])).1.is_on = true) := by
  intro st hcl
  constructor
  · intro hd
    unfold async_turn_on send_command async_connect send_core
    simp [hcl, hd]
  · intro hd
    unfold async_turn_on send_command async_connect send_core
    simp [hcl, hd]

/-- Witness for C9 with a 20-minute configured timer and, separately, a
0-minute configuration, both on a connected initial state. -/
theorem async_turn_on_sends_witness :
    (async_turn_on ({ initial_state with timer_duration := 20, client := some true }, [])).2 =
      [create_timer_command 20, TURN_ON_CMD, STATUS_QUERY_CMD] ∧
    (async_turn_on ({ initial_state with timer_duration := 0, client := some true }, [])).2 =
      [TURN_ON_CMD] :=
  ⟨by
    have h := (async_turn_on_sends { initial_state with timer_duration := 20, client := some true }
      rfl).1 (by decide)
    exact h.1,
   by
    have h := (async_turn_on_sends { initial_state with timer_duration := 0, client := some true }
      rfl).2 rfl
    exact h.1⟩

/-- C10: `async_turn_off` sets `is_on` to false and cancels the auto-off
timer, while leaving `timer_remaining`, the countdown, and the configured
duration untouched — it never stops an active countdown (on a connected
session the only frame written is `TURN_OFF_CMD`). -/
theorem async_turn_off_effects :
    ∀ (st : CoordinatorState) (sent : List (List Nat)),
      (async_turn_off (st, sent)).1.is_on = false ∧
      (async_turn_off (st, sent)).1.auto_off_timer = false ∧
      (async_turn_off (st, sent)).1.timer_remaining = st.timer_remaining ∧
      (async_turn_off (st, sent)).1.countdown_timer = st.countdown_timer ∧
      (async_turn_off (st, sent)).1.timer_duration = st.timer_duration ∧
      (st.client = some true → (async_turn_off (st, sent)).2 = sent ++ [TURN_OFF_CMD]) := by
  intro st sent
  unfold async_turn_off send_command async_connect send_core
  split_ifs <;> simp_all

/-- Witness for C10: turning off a connected device mid-countdown (remaining
5 seconds) keeps the countdown running and the remaining seconds intact,
writing only `TURN_OFF_CMD`. -/
theorem async_turn_off_effects_witness :
    (async_turn_off ({ initial_state with
        is_on := true
        timer_remaining := 5
        countdown_timer := true
        client := some true }, [])).1.countdown_timer =
      ({ initial_state with
          is_on := true
          timer_remaining := 5
          countdown_timer := true
          client := some true } : CoordinatorState).countdown_timer ∧
    (async_turn_off ({ initial_state with
        is_on := true
        timer_remaining := 5
        countdown_timer := true
        client := some true }, [])).2 = [] ++ [TURN_OFF_CMD] :=
  ⟨(async_turn_off_effects { initial_state with
      is_on := true
      timer_remaining := 5
      countdown_timer := true
      client := some true } []).2.2.2.1,
    (async_turn_off_effects { initial_state with
      is_on := true
      timer_remaining := 5
      countdown_timer := true
      client := some true } []).2.2.2.2.2 rfl⟩
